import Mathlib

/-!
Shallow embedding of the `archive` file-processing pipeline
(`file_processor.py`, `csv_processor.py`, `pdf_processor.py`,
`image_processor.py`).

Python runtime values that can appear in the structured JSON-like
envelopes are modelled by `PyValue`; numpy scalar wrappers (`np.int64`,
`np.float64`, `np.ndarray`) are kept distinct from native Python values
because `CSVProcessor._convert_value` branches on exactly that
distinction, and because `json.dump` accepts only the native ones.

External effects (reading a CSV, walking PDF pages, running OCR, file
writes) are supplied by a `World` of oracles; an extractor-level fault
is a `Except.error` from the corresponding oracle. Extraction faults
are caught inside each extractor (as in the Python `try/except` blocks),
write faults surface from `save_output` as `Except.error` and are then
caught by `FileProcessor.process_file`'s own catch-all.
-/

/-- Python float: a finite rational or the IEEE NaN marker. -/
inductive PyFloat where
  | finite (q : ℚ)
  | nan
deriving DecidableEq, Repr

/-- Runtime values flowing through the processors. The `np`-prefixed
constructors are numpy engine wrappers; the `py`-prefixed ones are
native Python values (the only ones `json.dump` can serialize). -/
inductive PyValue where
  | pyNone
  | pyBool (b : Bool)
  | pyInt (n : ℤ)
  | pyFloat (f : PyFloat)
  | pyStr (s : String)
  | pyList (l : List PyValue)
  | pyDict (l : List (String × PyValue))
  | npInt (n : ℤ)
  | npFloat (f : PyFloat)
  | npArray (l : List PyValue)
deriving Repr

mutual

/-- Structural equality test on `PyValue` (used to model pandas
`Series.unique`, which hashes values structurally). -/
def PyValue.beq : PyValue → PyValue → Bool
  | .pyNone, .pyNone => true
  | .pyBool a, .pyBool b => a == b
  | .pyInt a, .pyInt b => a == b
  | .pyFloat a, .pyFloat b => a == b
  | .pyStr a, .pyStr b => a == b
  | .pyList a, .pyList b => PyValue.beqList a b
  | .pyDict a, .pyDict b => PyValue.beqKV a b
  | .npInt a, .npInt b => a == b
  | .npFloat a, .npFloat b => a == b
  | .npArray a, .npArray b => PyValue.beqList a b
  | _, _ => false

/-- Pointwise `PyValue.beq` on lists. -/
def PyValue.beqList : List PyValue → List PyValue → Bool
  | [], [] => true
  | a :: as, b :: bs => PyValue.beq a b && PyValue.beqList as bs
  | _, _ => false

/-- Pointwise `PyValue.beq` on string-keyed association lists. -/
def PyValue.beqKV : List (String × PyValue) → List (String × PyValue) → Bool
  | [], [] => true
  | (k, v) :: as, (m, w) :: bs => k == m && PyValue.beq v w && PyValue.beqKV as bs
  | _, _ => false

end

/-- Dictionary field access: `v[k]` on a Python dict, `none` when the key
is absent or the value is not a dict. -/
def PyValue.get? (v : PyValue) (k : String) : Option PyValue :=
  match v with
  | .pyDict l => l.lookup k
  | _ => none

mutual

/-- Whether `json.dump` accepts the value: numpy wrappers (`np.int64`,
`np.float64`, `np.ndarray`) make it raise `TypeError`. -/
def jsonSerializable : PyValue → Bool
  | .pyNone => true
  | .pyBool _ => true
  | .pyInt _ => true
  | .pyFloat _ => true
  | .pyStr _ => true
  | .pyList l => jsonSerializableList l
  | .pyDict l => jsonSerializableKV l
  | .npInt _ => false
  | .npFloat _ => false
  | .npArray _ => false

/-- Model of `jsonSerializable` on every element of a list. -/
def jsonSerializableList : List PyValue → Bool
  | [] => true
  | a :: as => jsonSerializable a && jsonSerializableList as

/-- Model of `jsonSerializable` on every value of an association list. -/
def jsonSerializableKV : List (String × PyValue) → Bool
  | [] => true
  | (_, v) :: as => jsonSerializable v && jsonSerializableKV as

end

/-! ### String and path helpers (`str` methods and `os.path`) -/

/-- Python's whitespace class, as used by `str.split()`/`str.strip()`. -/
def pyIsSpace (c : Char) : Bool := c.isWhitespace

/-- Tail-recursive worker for `str.split()`: `acc` holds the current word
reversed. -/
def splitWSAux : List Char → List Char → List (List Char)
  | [], acc => if acc.isEmpty then [] else [acc.reverse]
  | c :: cs, acc =>
    if pyIsSpace c then
      if acc.isEmpty then splitWSAux cs [] else acc.reverse :: splitWSAux cs []
    else splitWSAux cs (c :: acc)

/-- Python `str.split()` with no arguments: split on runs of whitespace,
discarding empty fields. -/
def splitWS (l : List Char) : List (List Char) := splitWSAux l []

/-- Python `str.strip()`: drop leading and trailing whitespace. -/
def stripChars (l : List Char) : List Char :=
  ((l.dropWhile pyIsSpace).reverse.dropWhile pyIsSpace).reverse

/-- Python `str.strip()` on `String`. -/
def pyStrip (s : String) : String := ⟨stripChars s.data⟩

/-- Python `str.split()` on `String`. -/
def pySplit (s : String) : List String := (splitWS s.data).map (fun w => ⟨w⟩)

/-- Python `str.lower()` (character-wise lowering). -/
def pyLower (s : String) : String := ⟨s.data.map Char.toLower⟩

/-- Model of `os.path.basename`: the part after the last `/`. -/
def pyBasename (p : String) : String :=
  ⟨(p.data.reverse.takeWhile (fun c => c ≠ '/')).reverse⟩

/-- Model of `os.path.splitext` on a character list: the extension starts at the
last dot of the final path component, except that leading dots of that
component never start an extension. -/
def splitExtChars (l : List Char) : List Char × List Char :=
  let dir := (l.reverse.dropWhile (fun c => c ≠ '/')).reverse
  let base := (l.reverse.takeWhile (fun c => c ≠ '/')).reverse
  let lead := base.takeWhile (fun c => c = '.')
  let rrev := (base.dropWhile (fun c => c = '.')).reverse
  match rrev.dropWhile (fun c => c ≠ '.') with
  | [] => (l, [])
  | _ :: rootRev =>
    (dir ++ lead ++ rootRev.reverse, '.' :: (rrev.takeWhile (fun c => c ≠ '.')).reverse)

/-- Model of `os.path.splitext(p)[1]`. -/
def pyExt (p : String) : String := ⟨(splitExtChars p.data).2⟩

/-- Model of `os.path.splitext(p)[0]`. -/
def pyRoot (p : String) : String := ⟨(splitExtChars p.data).1⟩

/-- Model of `os.path.join(a, b)` for a relative second component. -/
def pyJoin (a b : String) : String :=
  if a = "" then b
  else if a.data.getLast? = some '/' then a ++ b
  else a ++ "/" ++ b

/-! ### Rounding (`round(x, 2)`) -/

/-- Python's `round` to an integer: round half to even. -/
def roundHalfEven (q : ℚ) : ℤ :=
  if q - ⌊q⌋ < 1/2 then ⌊q⌋
  else if (1:ℚ)/2 < q - ⌊q⌋ then ⌊q⌋ + 1
  else if ⌊q⌋ % 2 = 0 then ⌊q⌋ else ⌊q⌋ + 1

/-- Python's `round(x, 2)`. -/
def round2 (q : ℚ) : ℚ := (roundHalfEven (q * 100) : ℚ) / 100

/-! ### Data model for the external world -/

/-- Pandas column dtype tags used by the model. -/
inductive Dtype where
  | int64
  | float64
  | object
deriving DecidableEq, Repr

/-- The `str(dtype)` tag. -/
def dtypeStr : Dtype → String
  | .int64 => "int64"
  | .float64 => "float64"
  | .object => "object"

/-- Model of `pd.api.types.is_numeric_dtype`. -/
def isNumericDtype : Dtype → Bool
  | .int64 => true
  | .float64 => true
  | .object => false

/-- One column of a parsed DataFrame: name, inferred dtype and the cell
values from top to bottom (numpy wrappers for numeric dtypes). -/
structure Column where
  name : String
  dtype : Dtype
  values : List PyValue
deriving Repr

/-- A parsed DataFrame: columns in order plus the row count. -/
structure DataFrame where
  cols : List Column
  nrows : ℕ
deriving Repr

/-- Well-formedness: every column holds one value per row. -/
def DataFrame.WF (df : DataFrame) : Prop :=
  ∀ c ∈ df.cols, c.values.length = df.nrows

/-- Result of `PIL.Image.open` plus the two tesseract calls. -/
structure ImgData where
  format : String
  width : ℕ
  height : ℕ
  mode : String
  text : String
  conf : List ℚ
deriving Repr

/-- Oracles for everything outside the program: parsing succeeds with a
value or raises with a message, and a write either completes or raises. -/
structure World where
  readCsv : String → Except String DataFrame
  fileSize : String → ℕ
  pdfPages : String → Except String (List String)
  imageOcr : String → Except String ImgData
  writeFault : String → Option String

/-! ### CSVProcessor -/

namespace CSVProcessor

/-- Model of `pd.isna` on a scalar. -/
def pdIsna (v : PyValue) : Bool :=
  match v with
  | .pyNone => true
  | .pyFloat .nan => true
  | .npFloat .nan => true
  | _ => false

/-- Model of `np.ndarray.tolist` on an array of scalars. -/
def npScalarToNative (v : PyValue) : PyValue :=
  match v with
  | .npInt n => .pyInt n
  | .npFloat f => .pyFloat f
  | v => v

/-- Model of `CSVProcessor._convert_value`: the `isinstance (np.integer, np.floating)`
branch comes first, then `np.ndarray`, then the `pd.isna` check, then
pass-through — mirroring the Python statement order. -/
def convert_value (v : PyValue) : PyValue :=
  match v with
  | .npInt n => .pyInt n
  | .npFloat f => .pyFloat f
  | .npArray l => .pyList (l.map npScalarToNative)
  | v => if pdIsna v then .pyNone else v

/-- Cell access `row[column]` for row index `i`. -/
def colCell (c : Column) (i : ℕ) : PyValue := c.values.getD i .pyNone

/-- Model of `df[column].isnull().sum()` (a numpy integer in Python). -/
def nullCount (c : Column) : ℕ := c.values.countP pdIsna

/-- Model of `len(df[column].unique())`: number of structurally distinct values. -/
def countDistinct (l : List PyValue) : ℕ :=
  (l.foldl (fun seen v => if seen.any (PyValue.beq v) then seen else seen ++ [v]) []).length

/-- The integer cells of a column. -/
def colInts (c : Column) : List ℤ :=
  c.values.filterMap (fun v => match v with | .npInt n => some n | _ => none)

/-- The finite float cells of a column (NaN skipped, as pandas does). -/
def colFloats (c : Column) : List ℚ :=
  c.values.filterMap (fun v => match v with | .npFloat (.finite q) => some q | _ => none)

/-- The column's non-missing cells as rationals, for mean/median. -/
def colNums (c : Column) : List ℚ :=
  match c.dtype with
  | .int64 => (colInts c).map (fun n => (n : ℚ))
  | _ => colFloats c

/-- Model of `df[column].min()`: numpy scalar of the column dtype, NaN when empty. -/
def seriesMin (c : Column) : PyValue :=
  match c.dtype with
  | .int64 =>
    match (colInts c).min? with
    | some m => .npInt m
    | none => .npFloat .nan
  | _ =>
    match (colFloats c).min? with
    | some m => .npFloat (.finite m)
    | none => .npFloat .nan

/-- Model of `df[column].max()`: numpy scalar of the column dtype, NaN when empty. -/
def seriesMax (c : Column) : PyValue :=
  match c.dtype with
  | .int64 =>
    match (colInts c).max? with
    | some m => .npInt m
    | none => .npFloat .nan
  | _ =>
    match (colFloats c).max? with
    | some m => .npFloat (.finite m)
    | none => .npFloat .nan

/-- Model of `df[column].mean()`: a numpy float (NaN on an empty column). -/
def seriesMean (c : Column) : PyValue :=
  let qs := colNums c
  if qs.isEmpty then .npFloat .nan else .npFloat (.finite (qs.sum / qs.length))

/-- Model of `df[column].median()`: a numpy float (NaN on an empty column). -/
def seriesMedian (c : Column) : PyValue :=
  let s := List.insertionSort (fun a b => a ≤ b) (colNums c)
  if s.isEmpty then .npFloat .nan
  else if s.length % 2 = 1 then .npFloat (.finite (s.getD (s.length / 2) 0))
  else .npFloat (.finite ((s.getD (s.length / 2 - 1) 0 + s.getD (s.length / 2) 0) / 2))

/-- The per-column `stats` dict built in `process_csv`. Note that
`null_count` is the raw `isnull().sum()` numpy integer (it is not passed
through `_convert_value`), while `unique_values` is a native `len`. -/
def colStats (c : Column) : PyValue :=
  .pyDict ([("dtype", PyValue.pyStr (dtypeStr c.dtype)),
            ("null_count", PyValue.npInt (nullCount c)),
            ("unique_values", PyValue.pyInt (countDistinct c.values))] ++
    (if isNumericDtype c.dtype then
      [("min", convert_value (seriesMin c)),
       ("max", convert_value (seriesMax c)),
       ("mean", convert_value (seriesMean c)),
       ("median", convert_value (seriesMedian c))]
     else []))

/-- The `data` rows: each row becomes a dict from column name to the
`_convert_value` image of the cell. -/
def dataRows (df : DataFrame) : List PyValue :=
  (List.range df.nrows).map (fun i =>
    .pyDict (df.cols.map (fun c => (c.name, convert_value (colCell c i)))))

/-- Model of `CSVProcessor.process_csv`: parse, build metadata, per-column stats
and converted rows; any fault from the read becomes an error envelope
with empty placeholders. -/
def process_csv (w : World) (csv_path : String) : PyValue :=
  match w.readCsv csv_path with
  | .error e =>
    .pyDict [("processing_status", .pyStr "error"),
             ("error_message", .pyStr ("Error processing CSV " ++ csv_path ++ ": " ++ e)),
             ("metadata", .pyDict []),
             ("column_statistics", .pyDict []),
             ("data", .pyList [])]
  | .ok df =>
    .pyDict [("metadata", .pyDict
                [("row_count", .pyInt df.nrows),
                 ("column_count", .pyInt df.cols.length),
                 ("columns", .pyList (df.cols.map (fun c => .pyStr c.name))),
                 ("file_name", .pyStr (pyBasename csv_path)),
                 ("file_size", .pyInt (w.fileSize csv_path))]),
             ("column_statistics", .pyDict (df.cols.map (fun c => (c.name, colStats c)))),
             ("data", .pyList (dataRows df)),
             ("processing_status", .pyStr "success")]

end CSVProcessor

/-- Model of `save_output` (identical in all three processor classes): a write
fault, or `json.dump` rejecting a non-serializable value, raises (the
`except` clause logs and re-raises); otherwise exactly one JSON file is
written. The model treats a completed write as the pair (path, data). -/
def save_output (w : World) (output_data : PyValue) (output_path : String) :
    Except String (String × PyValue) :=
  match w.writeFault output_path with
  | some e => .error e
  | none =>
    if jsonSerializable output_data then .ok (output_path, output_data)
    else .error "Object is not JSON serializable"

/-! ### PDFProcessor -/

namespace PDFProcessor

/-- The per-page dict built in `process_pdf` for (0-based index, text):
`enumerate(..., 1)` makes `page_number` 1-based, `content` is the
stripped text and `word_count` is `len(text.split())` on the raw text. -/
def pageData (i : ℕ) (text : String) : PyValue :=
  .pyDict [("page_number", .pyInt (i + 1)),
           ("content", .pyStr (pyStrip text)),
           ("word_count", .pyInt (pySplit text).length)]

/-- Model of `PDFProcessor.process_pdf`: page texts come from the pdfminer oracle;
any fault becomes an error envelope with empty placeholders. -/
def process_pdf (w : World) (pdf_path : String) : PyValue :=
  match w.pdfPages pdf_path with
  | .error e =>
    .pyDict [("processing_status", .pyStr "error"),
             ("error_message", .pyStr ("Error processing PDF " ++ pdf_path ++ ": " ++ e)),
             ("pages", .pyList []),
             ("metadata", .pyDict [])]
  | .ok texts =>
    .pyDict [("metadata", .pyDict
                [("total_pages", .pyInt texts.length),
                 ("file_name", .pyStr (pyBasename pdf_path)),
                 ("file_size", .pyInt (w.fileSize pdf_path))]),
             ("pages", .pyList (texts.enum.map (fun p => pageData p.1 p.2))),
             ("processing_status", .pyStr "success")]

end PDFProcessor

/-! ### ImageProcessor -/

namespace ImageProcessor

/-- The list comprehension filtering out the tesseract `-1` sentinel. -/
def filtered_confidences (conf : List ℚ) : List ℚ :=
  conf.filter (fun c => c != -1)

/-- Model of `avg_confidence`: mean of the kept confidences, `0` when none. -/
def avg_confidence (conf : List ℚ) : ℚ :=
  let cs := filtered_confidences conf
  if cs.isEmpty then 0 else cs.sum / cs.length

/-- Model of `round(avg_confidence, 2)`: the Python `int` 0 when no confidence
survives the filter, a float otherwise. -/
def confidence_score (conf : List ℚ) : PyValue :=
  if (filtered_confidences conf).isEmpty then .pyInt 0
  else .pyFloat (.finite (round2 (avg_confidence conf)))

/-- Model of `ImageProcessor.process_image`: open + OCR via the oracle; any fault
becomes an error envelope with empty text, zero confidence and no
metadata key. -/
def process_image (w : World) (image_path : String) : PyValue :=
  match w.imageOcr image_path with
  | .error e =>
    .pyDict [("processing_status", .pyStr "error"),
             ("error_message", .pyStr ("Error processing image " ++ image_path ++ ": " ++ e)),
             ("extracted_text", .pyStr ""),
             ("confidence_score", .pyInt 0)]
  | .ok img =>
    .pyDict [("metadata", .pyDict
                [("format", .pyStr img.format),
                 ("size", .pyList [.pyInt img.width, .pyInt img.height]),
                 ("mode", .pyStr img.mode)]),
             ("extracted_text", .pyStr (pyStrip img.text)),
             ("confidence_score", confidence_score img.conf),
             ("processing_status", .pyStr "success")]

end ImageProcessor

/-! ### FileProcessor -/

/-- Observable side effects of one `process_file` call. -/
inductive FPEvent where
  | extracted (kind : String) (path : String)
  | wrote (path : String) (data : PyValue)
deriving Repr

namespace FileProcessor

/-- The image extensions accepted by the dispatcher. -/
def imageExts : List String := [".png", ".jpg", ".jpeg", ".tiff", ".bmp"]

/-- All supported (lowercased) extensions. -/
def supportedExts : List String := imageExts ++ [".pdf", ".csv"]

/-- The dispatcher's derived output path for an input path. -/
def outputPathFor (output_dir file_path : String) : String :=
  pyJoin output_dir (pyRoot (pyBasename file_path) ++ "_processed.json")

/-- Shared tail of every supported branch: save the extractor result;
a raise from `save_output` is caught by the surrounding `try` and
downgraded to a top-level error envelope. -/
def finishSave (w : World) (file_path output_path : String) (result : PyValue)
    (kind : String) : PyValue × List FPEvent :=
  match save_output w result output_path with
  | .error e =>
    (.pyDict [("processing_status", .pyStr "error"),
              ("error_message", .pyStr ("Error processing file " ++ file_path ++ ": " ++ e))],
     [.extracted kind file_path])
  | .ok wr =>
    (.pyDict [("processing_status", .pyStr "success"),
              ("output_path", .pyStr output_path),
              ("results", result)],
     [.extracted kind file_path, .wrote wr.1 wr.2])

/-- Model of `FileProcessor.process_file`: lowercase the extension, derive the
output path, dispatch on the extension only, and wrap everything in a
catch-all that returns an error envelope. Returns the envelope together
with the trace of extraction/write events. -/
def process_file (w : World) (output_dir file_path : String) : PyValue × List FPEvent :=
  let ext := pyLower (pyExt file_path)
  let output_path := outputPathFor output_dir file_path
  if ext ∈ imageExts then
    finishSave w file_path output_path (ImageProcessor.process_image w file_path) "image"
  else if ext = ".pdf" then
    finishSave w file_path output_path (PDFProcessor.process_pdf w file_path) "pdf"
  else if ext = ".csv" then
    finishSave w file_path output_path (CSVProcessor.process_csv w file_path) "csv"
  else
    (.pyDict [("processing_status", .pyStr "error"),
              ("error_message", .pyStr ("Unsupported file type: " ++ ext))],
     [])

/-- The extractor envelope the dispatcher obtains for a supported path
(the same extension dispatch as `process_file`, without the save step). -/
def extractResult (w : World) (file_path : String) : PyValue :=
  if pyLower (pyExt file_path) ∈ imageExts then ImageProcessor.process_image w file_path
  else if pyLower (pyExt file_path) = ".pdf" then PDFProcessor.process_pdf w file_path
  else CSVProcessor.process_csv w file_path

/-- The branch tag of the dispatch, for the event trace. -/
def extKind (file_path : String) : String :=
  if pyLower (pyExt file_path) ∈ imageExts then "image"
  else if pyLower (pyExt file_path) = ".pdf" then "pdf"
  else "csv"

/-- Python dict assignment `d[k] = v`: overwrite in place when the key
exists (keeping its original position), append otherwise. -/
def dictInsert (l : List (String × PyValue)) (k : String) (v : PyValue) :
    List (String × PyValue) :=
  if (l.lookup k).isSome then l.map (fun p => if p.1 = k then (k, v) else p)
  else l ++ [(k, v)]

/-- Whether an envelope's `processing_status` equals `s`. -/
def isStatus (s : String) (v : PyValue) : Bool :=
  match v.get? "processing_status" with
  | some (.pyStr t) => t == s
  | _ => false

/-- The `results` dict of `batch_process`: one Python-dict assignment per
input path, in order. -/
def batchResults (w : World) (output_dir : String) (file_paths : List String) :
    List (String × PyValue) :=
  file_paths.foldl (fun acc p => dictInsert acc p (process_file w output_dir p).1) []

/-- Model of `FileProcessor.batch_process`: process each path, store under the path
key, and count success/error statuses over the dict's values. -/
def batch_process (w : World) (output_dir : String) (file_paths : List String) : PyValue :=
  let results := batchResults w output_dir file_paths
  .pyDict [("batch_results", .pyDict results),
           ("total_files", .pyInt file_paths.length),
           ("successful", .pyInt (results.countP (fun r => isStatus "success" r.2))),
           ("failed", .pyInt (results.countP (fun r => isStatus "error" r.2)))]

end FileProcessor

/-- The completed file writes recorded in an event trace. -/
def writesOf (evts : List FPEvent) : List (String × PyValue) :=
  evts.filterMap (fun e => match e with | .wrote p d => some (p, d) | _ => none)

/-! ### Concrete worlds used to instantiate theorems -/

/-- A world in which every parse/decode oracle raises and writes work. -/
def wFailAll : World :=
  { readCsv := fun _ => .error "boom"
    fileSize := fun _ => 10
    pdfPages := fun _ => .error "bad pdf"
    imageOcr := fun _ => .error "bad img"
    writeFault := fun _ => none }

/-- A one-column, one-row integer DataFrame. -/
def dfInt : DataFrame :=
  { cols := [{ name := "a", dtype := .int64, values := [.npInt 1] }], nrows := 1 }

/-- A world whose CSV oracle parses every path to `dfInt`. -/
def wInt : World :=
  { readCsv := fun _ => .ok dfInt
    fileSize := fun _ => 5
    pdfPages := fun _ => .error "x"
    imageOcr := fun _ => .error "x"
    writeFault := fun _ => none }

/-- A one-column float64 DataFrame whose single cell is a numpy NaN —
the representation pandas gives a missing value in a numeric column. -/
def dfNan : DataFrame :=
  { cols := [{ name := "x", dtype := .float64, values := [.npFloat .nan] }], nrows := 1 }

/-- A world whose CSV oracle parses every path to `dfNan`. -/
def wNan : World :=
  { readCsv := fun _ => .ok dfNan
    fileSize := fun _ => 4
    pdfPages := fun _ => .error "x"
    imageOcr := fun _ => .error "x"
    writeFault := fun _ => none }

/-- A world where PDF extraction succeeds but every write raises. -/
def wDiskFull : World :=
  { readCsv := fun _ => .error "boom"
    fileSize := fun _ => 3
    pdfPages := fun _ => .ok ["hello world"]
    imageOcr := fun _ => .error "x"
    writeFault := fun _ => some "disk full" }

/-- A world whose PDF oracle yields two fixed pages. -/
def wPdf : World :=
  { readCsv := fun _ => .error "x"
    fileSize := fun _ => 7
    pdfPages := fun _ => .ok ["  one two ", "three"]
    imageOcr := fun _ => .error "x"
    writeFault := fun _ => none }

/-! ### Lemmas about `str.split` and `str.strip` -/

theorem splitWSAux_of_allSpace (s : List Char) (h : ∀ c ∈ s, pyIsSpace c = true) :
    ∀ acc : List Char, splitWSAux s acc = if acc.isEmpty then [] else [acc.reverse] := by
  induction s with
  | nil => intro acc; rfl
  | cons c cs ih =>
    intro acc
    have hc : pyIsSpace c = true := h c (List.mem_cons_self c cs)
    have ih2 := ih (fun x hx => h x (List.mem_cons_of_mem c hx))
    by_cases ha : acc.isEmpty <;> simp [splitWSAux, hc, ha, ih2]

theorem splitWSAux_append_of_allSpace (t : List Char) (ht : ∀ c ∈ t, pyIsSpace c = true) :
    ∀ (s : List Char) (acc : List Char), splitWSAux (s ++ t) acc = splitWSAux s acc := by
  intro s
  induction s with
  | nil =>
    intro acc
    rw [List.nil_append, splitWSAux_of_allSpace t ht acc]
    rfl
  | cons c cs ih =>
    intro acc
    simp only [List.cons_append, splitWSAux, List.append_eq, ih]

theorem splitWS_cons_space {c : Char} (hc : pyIsSpace c = true) (cs : List Char) :
    splitWS (c :: cs) = splitWS cs := by
  simp [splitWS, splitWSAux, hc]

theorem splitWS_dropWhile (l : List Char) : splitWS (l.dropWhile pyIsSpace) = splitWS l := by
  induction l with
  | nil => rfl
  | cons c cs ih =>
    by_cases hc : pyIsSpace c = true
    · rw [List.dropWhile_cons]
      simp only [hc, if_true, ih, splitWS_cons_space hc]
    · rw [List.dropWhile_cons]
      simp [hc]

theorem stripChars_decomp (l : List Char) :
    ∃ t, l.dropWhile pyIsSpace = stripChars l ++ t ∧ ∀ c ∈ t, pyIsSpace c = true := by
  refine ⟨((l.dropWhile pyIsSpace).reverse.takeWhile pyIsSpace).reverse, ?_, ?_⟩
  · unfold stripChars
    calc l.dropWhile pyIsSpace
        = ((l.dropWhile pyIsSpace).reverse).reverse := (List.reverse_reverse _).symm
      _ = (((l.dropWhile pyIsSpace).reverse.takeWhile pyIsSpace) ++
            ((l.dropWhile pyIsSpace).reverse.dropWhile pyIsSpace)).reverse := by
            rw [List.takeWhile_append_dropWhile]
      _ = ((l.dropWhile pyIsSpace).reverse.dropWhile pyIsSpace).reverse ++
            ((l.dropWhile pyIsSpace).reverse.takeWhile pyIsSpace).reverse := by
            rw [List.reverse_append]
  · intro c hc
    rw [List.mem_reverse] at hc
    exact List.mem_takeWhile_imp hc

theorem splitWS_stripChars (l : List Char) : splitWS (stripChars l) = splitWS l := by
  obtain ⟨t, hdec, ht⟩ := stripChars_decomp l
  rw [← splitWS_dropWhile l, hdec]
  exact (splitWSAux_append_of_allSpace t ht (stripChars l) []).symm

theorem pySplit_pyStrip (s : String) : pySplit (pyStrip s) = pySplit s := by
  show (splitWS (stripChars s.data)).map _ = (splitWS s.data).map _
  rw [splitWS_stripChars]

/-! ### Lemmas about the dispatcher -/

theorem save_output_ok {w : World} {d : PyValue} {path : String} {wr : String × PyValue}
    (h : save_output w d path = .ok wr) : wr = (path, d) := by
  unfold save_output at h
  cases hw : w.writeFault path with
  | some e => rw [hw] at h; exact absurd h (by simp)
  | none =>
    rw [hw] at h
    by_cases hs : jsonSerializable d
    · simp [hs] at h; exact h.symm
    · simp [hs] at h

theorem process_file_unsupported {w : World} {dir p : String}
    (h : pyLower (pyExt p) ∉ FileProcessor.supportedExts) :
    FileProcessor.process_file w dir p =
      (.pyDict [("processing_status", .pyStr "error"),
                ("error_message", .pyStr ("Unsupported file type: " ++ pyLower (pyExt p)))],
       []) := by
  have h1 : pyLower (pyExt p) ∉ FileProcessor.imageExts := fun hm =>
    h (by rw [FileProcessor.supportedExts, List.mem_append]; exact Or.inl hm)
  have h2 : pyLower (pyExt p) ≠ ".pdf" := fun he =>
    h (by rw [FileProcessor.supportedExts, List.mem_append]; right; rw [he]; simp)
  have h3 : pyLower (pyExt p) ≠ ".csv" := fun he =>
    h (by rw [FileProcessor.supportedExts, List.mem_append]; right; rw [he]; simp)
  unfold FileProcessor.process_file
  simp [h1, h2, h3]

theorem process_file_supported {w : World} {dir p : String}
    (h : pyLower (pyExt p) ∈ FileProcessor.supportedExts) :
    FileProcessor.process_file w dir p =
      FileProcessor.finishSave w p (FileProcessor.outputPathFor dir p)
        (FileProcessor.extractResult w p) (FileProcessor.extKind p) := by
  unfold FileProcessor.process_file FileProcessor.extractResult FileProcessor.extKind
  by_cases h1 : pyLower (pyExt p) ∈ FileProcessor.imageExts
  · simp [h1]
  · rw [FileProcessor.supportedExts, List.mem_append] at h
    rcases h with h | h
    · exact absurd h h1
    · simp only [List.mem_cons, List.mem_singleton, List.not_mem_nil, or_false] at h
      have hp : (".pdf" : String) ∉ FileProcessor.imageExts := by decide
      have hc : (".csv" : String) ∉ FileProcessor.imageExts := by decide
      rcases h with h | h <;> simp [h1, h, hp, hc]

theorem process_file_shape (w : World) (dir p : String) :
    ((FileProcessor.process_file w dir p).1.get? "processing_status" = some (.pyStr "success") ∧
      ∃ d, writesOf (FileProcessor.process_file w dir p).2 =
        [(FileProcessor.outputPathFor dir p, d)]) ∨
    ((FileProcessor.process_file w dir p).1.get? "processing_status" = some (.pyStr "error") ∧
      writesOf (FileProcessor.process_file w dir p).2 = []) := by
  by_cases h : pyLower (pyExt p) ∈ FileProcessor.supportedExts
  · rw [process_file_supported h]
    unfold FileProcessor.finishSave
    cases hs : save_output w (FileProcessor.extractResult w p)
        (FileProcessor.outputPathFor dir p) with
    | error e => right; exact ⟨rfl, rfl⟩
    | ok wr =>
      left
      rw [save_output_ok hs]
      exact ⟨rfl, ⟨FileProcessor.extractResult w p, rfl⟩⟩
  · rw [process_file_unsupported h]
    right
    exact ⟨rfl, rfl⟩

theorem isStatus_error_not_success (w : World) (dir p : String) :
    FileProcessor.isStatus "error" (FileProcessor.process_file w dir p).1
      = !FileProcessor.isStatus "success" (FileProcessor.process_file w dir p).1 := by
  rcases process_file_shape w dir p with ⟨h, _⟩ | ⟨h, _⟩ <;>
    simp [FileProcessor.isStatus, h]

/-! ### Lemmas about `batch_process` -/

theorem lookup_eq_none_of_notMem (l : List (String × PyValue)) (k : String)
    (h : k ∉ l.map Prod.fst) : l.lookup k = none := by
  induction l with
  | nil => rfl
  | cons a as ih =>
    obtain ⟨a1, a2⟩ := a
    simp only [List.map_cons, List.mem_cons, not_or] at h
    have hb : (k == a1) = false := by simpa using h.1
    simp [List.lookup, hb, ih h.2]

theorem dictInsert_of_notMem (l : List (String × PyValue)) (k : String) (v : PyValue)
    (h : k ∉ l.map Prod.fst) : FileProcessor.dictInsert l k v = l ++ [(k, v)] := by
  unfold FileProcessor.dictInsert
  rw [lookup_eq_none_of_notMem l k h]
  rfl

theorem batchResults_eq_map_aux (w : World) (dir : String) :
    ∀ (paths : List String) (acc : List (String × PyValue)),
      (∀ p ∈ paths, p ∉ acc.map Prod.fst) → paths.Nodup →
      List.foldl (fun acc p =>
          FileProcessor.dictInsert acc p (FileProcessor.process_file w dir p).1) acc paths
        = acc ++ paths.map (fun p => (p, (FileProcessor.process_file w dir p).1)) := by
  intro paths
  induction paths with
  | nil => intro acc _ _; simp
  | cons p ps ih =>
    intro acc hdis hnd
    rw [List.nodup_cons] at hnd
    rw [List.foldl_cons,
      dictInsert_of_notMem acc p _ (hdis p (List.mem_cons_self p ps)),
      ih (acc ++ [(p, (FileProcessor.process_file w dir p).1)]) ?_ hnd.2]
    · simp
    · intro x hx
      rw [List.map_append, List.mem_append]
      rintro (hmem | hmem)
      · exact hdis x (List.mem_cons_of_mem p hx) hmem
      · simp only [List.map_cons, List.map_nil, List.mem_singleton] at hmem
        exact hnd.1 (hmem ▸ hx)

theorem batchResults_eq_map (w : World) (dir : String) (paths : List String)
    (hnd : paths.Nodup) :
    FileProcessor.batchResults w dir paths
      = paths.map (fun p => (p, (FileProcessor.process_file w dir p).1)) := by
  unfold FileProcessor.batchResults
  rw [batchResults_eq_map_aux w dir paths [] (by simp) hnd]
  simp

theorem countP_add_countP_eq_length {α : Type} (l : List α) (p q : α → Bool)
    (h : ∀ x ∈ l, q x = !p x) : l.countP p + l.countP q = l.length := by
  induction l with
  | nil => simp
  | cons a as ih =>
    have ha := h a (List.mem_cons_self a as)
    have ih2 := ih (fun x hx => h x (List.mem_cons_of_mem a hx))
    by_cases hp : p a <;> simp [List.countP_cons, hp, ha, ← ih2] <;> omega

/-! ### Lemmas about rounding and page enumeration -/

theorem roundHalfEven_intCast (n : ℤ) : roundHalfEven (n : ℚ) = n := by
  unfold roundHalfEven
  rw [Int.floor_intCast]
  norm_num

theorem round2_eq_of_intCast (q : ℚ) (n : ℤ) (h : q * 100 = (n : ℚ)) :
    round2 q = (n : ℚ) / 100 := by
  unfold round2
  rw [h, roundHalfEven_intCast]

theorem enum_map_getD {β : Type} (f : ℕ × String → β) (l : List String) (i : ℕ)
    (hi : i < l.length) (d : β) :
    (l.enum.map f).getD i d = f (i, l.getD i "") := by
  have h1 : i < (l.enum.map f).length := by simpa using hi
  rw [List.getD_eq_getElem _ _ h1, List.getElem_map, List.getElem_enum,
    List.getD_eq_getElem _ _ hi]

/-! ### Claims -/

/-- C1: for every input path whose lowercased extension is not one of
.png/.jpg/.jpeg/.tiff/.bmp/.pdf/.csv, `process_file` returns an error
envelope whose message is exactly "Unsupported file type: {ext}" (with
the lowercased extension), invokes no extractor and writes no output
file (the event trace is empty). -/
theorem claim_C1 (w : World) (dir p : String)
    (h : pyLower (pyExt p) ∉ FileProcessor.supportedExts) :
    FileProcessor.process_file w dir p =
      (.pyDict [("processing_status", .pyStr "error"),
                ("error_message", .pyStr ("Unsupported file type: " ++ pyLower (pyExt p)))],
       []) :=
  process_file_unsupported h

/-- Witness for C1 at the concrete unsupported path "notes.txt". -/
theorem claim_C1_witness :
    pyLower (pyExt "notes.txt") ∉ FileProcessor.supportedExts ∧
    FileProcessor.process_file wFailAll "processed_files" "notes.txt" =
      (.pyDict [("processing_status", .pyStr "error"),
                ("error_message",
                  .pyStr ("Unsupported file type: " ++ pyLower (pyExt "notes.txt")))],
       []) :=
  ⟨by decide, claim_C1 wFailAll "processed_files" "notes.txt" (by decide)⟩

/-- C2 counterexample: for "bad.csv" in a world where the CSV parse
raises, extraction fails (the inner envelope carries status error) and
yet `process_file` writes exactly one output file — the error envelope —
contradicting "writes no output file when extraction fails". -/
theorem counterexample_C2 :
    (CSVProcessor.process_csv wFailAll "bad.csv").get? "processing_status"
      = some (.pyStr "error") ∧
    writesOf (FileProcessor.process_file wFailAll "processed_files" "bad.csv").2
      = [("processed_files/bad_processed.json", CSVProcessor.process_csv wFailAll "bad.csv")] :=
  ⟨rfl, rfl⟩

/-- C2 (amended): `process_file` writes exactly one JSON file, at the
derived output path, precisely when its own top-level outcome is a
success (supported extension and the save call returns); otherwise it
writes nothing. A supported input whose extraction failed still gets its
error envelope written, so "no file on failed extraction" holds only for
faults raised at the save step, not for extraction faults. -/
theorem claim_C2 (w : World) (dir p : String) :
    ((FileProcessor.process_file w dir p).1.get? "processing_status" = some (.pyStr "success") ∧
      ∃ d, writesOf (FileProcessor.process_file w dir p).2 =
        [(FileProcessor.outputPathFor dir p, d)]) ∨
    ((FileProcessor.process_file w dir p).1.get? "processing_status" = some (.pyStr "error") ∧
      writesOf (FileProcessor.process_file w dir p).2 = []) :=
  process_file_shape w dir p

/-- C4: each extractor converts any open/parse/decode fault into a
returned error envelope with the documented empty placeholders — CSV:
data [], metadata {}, column_statistics {}; PDF: pages [], metadata {};
image: extracted_text "", confidence_score 0 and no metadata key — and
the fault never escapes the extractor (the extractors are total). -/
theorem claim_C4 (w : World) (path e : String) :
    (w.readCsv path = .error e →
      CSVProcessor.process_csv w path =
        .pyDict [("processing_status", .pyStr "error"),
                 ("error_message", .pyStr ("Error processing CSV " ++ path ++ ": " ++ e)),
                 ("metadata", .pyDict []),
                 ("column_statistics", .pyDict []),
                 ("data", .pyList [])]) ∧
    (w.pdfPages path = .error e →
      PDFProcessor.process_pdf w path =
        .pyDict [("processing_status", .pyStr "error"),
                 ("error_message", .pyStr ("Error processing PDF " ++ path ++ ": " ++ e)),
                 ("pages", .pyList []),
                 ("metadata", .pyDict [])]) ∧
    (w.imageOcr path = .error e →
      ImageProcessor.process_image w path =
        .pyDict [("processing_status", .pyStr "error"),
                 ("error_message", .pyStr ("Error processing image " ++ path ++ ": " ++ e)),
                 ("extracted_text", .pyStr ""),
                 ("confidence_score", .pyInt 0)] ∧
      (ImageProcessor.process_image w path).get? "metadata" = none) := by
  refine ⟨fun h => ?_, fun h => ?_, fun h => ?_⟩
  · unfold CSVProcessor.process_csv
    rw [h]
  · unfold PDFProcessor.process_pdf
    rw [h]
  · refine ⟨?_, ?_⟩ <;> unfold ImageProcessor.process_image <;> rw [h]
    rfl

/-- Witness for C4: the three error envelopes at concrete faulting
paths in `wFailAll`. -/
theorem claim_C4_witness :
    CSVProcessor.process_csv wFailAll "bad.csv" =
      .pyDict [("processing_status", .pyStr "error"),
               ("error_message", .pyStr ("Error processing CSV " ++ "bad.csv" ++ ": " ++ "boom")),
               ("metadata", .pyDict []),
               ("column_statistics", .pyDict []),
               ("data", .pyList [])] ∧
    PDFProcessor.process_pdf wFailAll "bad.pdf" =
      .pyDict [("processing_status", .pyStr "error"),
               ("error_message", .pyStr ("Error processing PDF " ++ "bad.pdf" ++ ": " ++ "bad pdf")),
               ("pages", .pyList []),
               ("metadata", .pyDict [])] ∧
    (ImageProcessor.process_image wFailAll "bad.png" =
      .pyDict [("processing_status", .pyStr "error"),
               ("error_message", .pyStr ("Error processing image " ++ "bad.png" ++ ": " ++ "bad img")),
               ("extracted_text", .pyStr ""),
               ("confidence_score", .pyInt 0)] ∧
      (ImageProcessor.process_image wFailAll "bad.png").get? "metadata" = none) :=
  ⟨(claim_C4 wFailAll "bad.csv" "boom").1 rfl,
   (claim_C4 wFailAll "bad.pdf" "bad pdf").2.1 rfl,
   (claim_C4 wFailAll "bad.png" "bad img").2.2 rfl⟩

/-- C10: for a path with a supported extension, whenever the save call
returns without raising, `process_file` reports top-level success with
the extractor's envelope embedded verbatim under `results` — the
dispatcher never inspects the inner `processing_status`, so top-level
success does not imply extraction success. -/
theorem claim_C10 (w : World) (dir p : String)
    (hsupp : pyLower (pyExt p) ∈ FileProcessor.supportedExts)
    (hok : save_output w (FileProcessor.extractResult w p) (FileProcessor.outputPathFor dir p)
      = .ok (FileProcessor.outputPathFor dir p, FileProcessor.extractResult w p)) :
    (FileProcessor.process_file w dir p).1 =
      .pyDict [("processing_status", .pyStr "success"),
               ("output_path", .pyStr (FileProcessor.outputPathFor dir p)),
               ("results", FileProcessor.extractResult w p)] := by
  rw [process_file_supported hsupp]
  unfold FileProcessor.finishSave
  rw [hok]

/-- Witness for C10: a malformed CSV whose inner envelope is an error,
yet the top-level envelope reports success. -/
theorem claim_C10_witness :
    pyLower (pyExt "bad.csv") ∈ FileProcessor.supportedExts ∧
    save_output wFailAll (FileProcessor.extractResult wFailAll "bad.csv")
        (FileProcessor.outputPathFor "out" "bad.csv")
      = .ok (FileProcessor.outputPathFor "out" "bad.csv",
             FileProcessor.extractResult wFailAll "bad.csv") ∧
    (FileProcessor.extractResult wFailAll "bad.csv").get? "processing_status"
      = some (.pyStr "error") ∧
    (FileProcessor.process_file wFailAll "out" "bad.csv").1 =
      .pyDict [("processing_status", .pyStr "success"),
               ("output_path", .pyStr (FileProcessor.outputPathFor "out" "bad.csv")),
               ("results", FileProcessor.extractResult wFailAll "bad.csv")] :=
  ⟨by decide, rfl, rfl, claim_C10 wFailAll "out" "bad.csv" (by decide) rfl⟩

/-- C3 counterexample: for the 3-path list ["bad.csv", "x.txt", "x.txt"]
(all three malformed or unsupported, so k = 3 = N) the batch envelope
has total_files = 3 but successful = 1 and failed = 1: the dict keyed by
path collapses the duplicate, the counts range over the 2 distinct
entries (1 + 1 ≠ 3), failed ≠ k, and batch_results has 2 entries, not 3.
The malformed-but-supported "bad.csv" is even counted as successful. -/
theorem counterexample_C3 :
    (FileProcessor.batch_process wFailAll "out" ["bad.csv", "x.txt", "x.txt"]).get? "total_files"
      = some (.pyInt 3) ∧
    (FileProcessor.batch_process wFailAll "out" ["bad.csv", "x.txt", "x.txt"]).get? "successful"
      = some (.pyInt 1) ∧
    (FileProcessor.batch_process wFailAll "out" ["bad.csv", "x.txt", "x.txt"]).get? "failed"
      = some (.pyInt 1) ∧
    ((FileProcessor.batch_process wFailAll "out" ["bad.csv", "x.txt", "x.txt"]).get?
        "batch_results").map
      (fun v => match v with | .pyDict l => l.length | _ => 0) = some 2 ∧
    (1 : ℤ) + 1 ≠ 3 ∧ (2 : ℕ) ≠ 3 :=
  ⟨rfl, rfl, rfl, rfl, by decide, by decide⟩

/-- C3 (amended): for a list of N pairwise-distinct paths,
`batch_results` has exactly N entries keyed by the original paths in
input order, `total_files` = N, and `successful`/`failed` partition N,
where `failed` counts the paths whose top-level envelope is an error
(unsupported extension or save fault; a malformed input of a supported
extension counts as successful, cf. C10). With duplicated paths the dict
collapses entries, so the counts partition the number of distinct paths
instead of N. -/
theorem claim_C3 (w : World) (dir : String) (paths : List String) (hnd : paths.Nodup) :
    (FileProcessor.batch_process w dir paths).get? "batch_results"
      = some (.pyDict (paths.map (fun p => (p, (FileProcessor.process_file w dir p).1)))) ∧
    (FileProcessor.batch_process w dir paths).get? "total_files"
      = some (.pyInt paths.length) ∧
    (FileProcessor.batch_process w dir paths).get? "successful"
      = some (.pyInt (paths.countP
          (fun p => FileProcessor.isStatus "success" (FileProcessor.process_file w dir p).1))) ∧
    (FileProcessor.batch_process w dir paths).get? "failed"
      = some (.pyInt (paths.countP
          (fun p => FileProcessor.isStatus "error" (FileProcessor.process_file w dir p).1))) ∧
    paths.countP (fun p => FileProcessor.isStatus "success" (FileProcessor.process_file w dir p).1)
      + paths.countP (fun p => FileProcessor.isStatus "error" (FileProcessor.process_file w dir p).1)
      = paths.length := by
  have hb := batchResults_eq_map w dir paths hnd
  have h1 : (FileProcessor.batch_process w dir paths).get? "batch_results"
      = some (.pyDict (FileProcessor.batchResults w dir paths)) := rfl
  have h3 : (FileProcessor.batch_process w dir paths).get? "successful"
      = some (.pyInt ((FileProcessor.batchResults w dir paths).countP
          (fun r => FileProcessor.isStatus "success" r.2))) := rfl
  have h4 : (FileProcessor.batch_process w dir paths).get? "failed"
      = some (.pyInt ((FileProcessor.batchResults w dir paths).countP
          (fun r => FileProcessor.isStatus "error" r.2))) := rfl
  refine ⟨?_, rfl, ?_, ?_, ?_⟩
  · rw [h1, hb]
  · rw [h3, hb, List.countP_map]
    rfl
  · rw [h4, hb, List.countP_map]
    rfl
  · exact countP_add_countP_eq_length paths _ _
      (fun x _ => isStatus_error_not_success w dir x)

/-- Witness for C3 at the duplicate-free list ["bad.csv", "x.txt"]:
the success/error counts partition its length 2. -/
theorem claim_C3_witness :
    (["bad.csv", "x.txt"] : List String).Nodup ∧
    (["bad.csv", "x.txt"] : List String).countP
        (fun p => FileProcessor.isStatus "success" (FileProcessor.process_file wFailAll "out" p).1)
      + (["bad.csv", "x.txt"] : List String).countP
        (fun p => FileProcessor.isStatus "error" (FileProcessor.process_file wFailAll "out" p).1)
      = (["bad.csv", "x.txt"] : List String).length :=
  ⟨by decide, (claim_C3 wFailAll "out" ["bad.csv", "x.txt"] (by decide)).2.2.2.2⟩

/-- C5 counterexample: a NaN held in a numpy floating scalar — the
representation of every missing value in a float64 column — is converted
by `_convert_value` to a native float NaN, not to the null value, because
the `isinstance (np.integer, np.floating)` branch fires before the
`pd.isna` check; end to end, the float64 column [NaN] materializes its
row as {"x": nan}. -/
theorem counterexample_C5 :
    CSVProcessor.convert_value (.npFloat .nan) = .pyFloat .nan ∧
    CSVProcessor.convert_value (.npFloat .nan) ≠ .pyNone ∧
    (CSVProcessor.process_csv wNan "n.csv").get? "data"
      = some (.pyList [.pyDict [("x", .pyFloat .nan)]]) :=
  ⟨rfl, fun h => PyValue.noConfusion h, rfl⟩

/-- C5 (amended): every row materializes as a mapping from each column
name to the `_convert_value` image of that cell; a missing value that
reaches the converter as None or as a plain Python float NaN converts to
null, numpy integer/float wrappers convert to natives by value — so a
numpy-wrapped NaN (the numeric-column representation of a missing value)
becomes a native float NaN rather than null. -/
theorem claim_C5 (w : World) (path : String) (df : DataFrame)
    (h : w.readCsv path = .ok df) :
    (CSVProcessor.process_csv w path).get? "data"
      = some (.pyList ((List.range df.nrows).map (fun i =>
          .pyDict (df.cols.map (fun c =>
            (c.name, CSVProcessor.convert_value (CSVProcessor.colCell c i))))))) ∧
    CSVProcessor.convert_value .pyNone = .pyNone ∧
    CSVProcessor.convert_value (.pyFloat .nan) = .pyNone ∧
    (∀ f, CSVProcessor.convert_value (.npFloat f) = .pyFloat f) ∧
    (∀ n, CSVProcessor.convert_value (.npInt n) = .pyInt n) := by
  refine ⟨?_, rfl, rfl, fun f => rfl, fun n => rfl⟩
  unfold CSVProcessor.process_csv
  rw [h]
  rfl

/-- Witness for C5 at the concrete float64 NaN DataFrame. -/
theorem claim_C5_witness :
    wNan.readCsv "n.csv" = .ok dfNan ∧
    (CSVProcessor.process_csv wNan "n.csv").get? "data"
      = some (.pyList ((List.range dfNan.nrows).map (fun i =>
          .pyDict (dfNan.cols.map (fun c =>
            (c.name, CSVProcessor.convert_value (CSVProcessor.colCell c i))))))) :=
  ⟨rfl, (claim_C5 wNan "n.csv" dfNan rfl).1⟩

/-- C6: the confidence aggregation keeps exactly the tokens whose
confidence differs from the -1 sentinel (membership and multiplicity),
reports the mean of the kept values rounded to 2 decimal places, reports
0 when no token has a defined confidence, and on [90, -1, 80, -1] yields
exactly 85.0. -/
theorem claim_C6 (conf : List ℚ) :
    (∀ c ∈ ImageProcessor.filtered_confidences conf, c ≠ -1) ∧
    (∀ c : ℚ, c ≠ -1 →
      (ImageProcessor.filtered_confidences conf).count c = conf.count c) ∧
    (ImageProcessor.filtered_confidences conf ≠ [] →
      ImageProcessor.confidence_score conf =
        .pyFloat (.finite (round2 ((ImageProcessor.filtered_confidences conf).sum /
          (ImageProcessor.filtered_confidences conf).length)))) ∧
    (ImageProcessor.filtered_confidences conf = [] →
      ImageProcessor.confidence_score conf = .pyInt 0) ∧
    ImageProcessor.confidence_score [90, -1, 80, -1] = .pyFloat (.finite 85) := by
  refine ⟨?_, ?_, ?_, ?_, ?_⟩
  · intro c hc
    simp only [ImageProcessor.filtered_confidences, List.mem_filter, bne_iff_ne,
      ne_eq] at hc
    exact hc.2
  · intro c hc
    unfold ImageProcessor.filtered_confidences
    rw [List.count_filter]
    simp [hc]
  · intro h
    cases hf : ImageProcessor.filtered_confidences conf with
    | nil => exact absurd hf h
    | cons a l =>
      unfold ImageProcessor.confidence_score ImageProcessor.avg_confidence
      rw [hf]
      simp
  · intro h
    unfold ImageProcessor.confidence_score
    rw [h]
    rfl
  · have hfil : ImageProcessor.filtered_confidences [90, -1, 80, -1] = [90, 80] := by decide
    have h85 : ImageProcessor.avg_confidence [90, -1, 80, -1] = 85 := by
      unfold ImageProcessor.avg_confidence
      rw [hfil]
      norm_num
    have hr : round2 (85 : ℚ) = 85 := by
      rw [round2_eq_of_intCast 85 8500 (by norm_num)]
      norm_num
    unfold ImageProcessor.confidence_score
    rw [hfil, h85, hr]
    rfl

/-- Witness for C6 at the concrete confidence list [90, -1, 80, -1]. -/
theorem claim_C6_witness :
    ImageProcessor.filtered_confidences [90, -1, 80, -1] ≠ [] ∧
    ImageProcessor.confidence_score [90, -1, 80, -1] =
      .pyFloat (.finite (round2 ((ImageProcessor.filtered_confidences [90, -1, 80, -1]).sum /
        (ImageProcessor.filtered_confidences [90, -1, 80, -1]).length))) :=
  ⟨by decide, (claim_C6 [90, -1, 80, -1]).2.2.1 (by decide)⟩

/-- C7: for a PDF whose page walk succeeds with N page texts, `pages`
has exactly N records; the i-th record carries page_number i+1 (1-based,
contiguous, increasing), its content is the stripped page text, and its
word_count equals the whitespace token count of its own content (the
code counts tokens of the raw text, which coincide). -/
theorem claim_C7 (w : World) (path : String) (texts : List String)
    (h : w.pdfPages path = .ok texts) :
    ∃ pages : List PyValue,
      (PDFProcessor.process_pdf w path).get? "pages" = some (.pyList pages) ∧
      pages.length = texts.length ∧
      ∀ i, i < texts.length →
        ∃ c : String,
          pages.getD i .pyNone =
            .pyDict [("page_number", .pyInt (i + 1)),
                     ("content", .pyStr c),
                     ("word_count", .pyInt (pySplit c).length)] ∧
          c = pyStrip (texts.getD i "") := by
  refine ⟨texts.enum.map (fun p => PDFProcessor.pageData p.1 p.2), ?_, by simp, ?_⟩
  · unfold PDFProcessor.process_pdf
    rw [h]
    rfl
  · intro i hi
    refine ⟨pyStrip (texts.getD i ""), ?_, rfl⟩
    rw [enum_map_getD _ texts i hi]
    unfold PDFProcessor.pageData
    rw [pySplit_pyStrip]

/-- Witness for C7 at a concrete two-page document. -/
theorem claim_C7_witness :
    wPdf.pdfPages "doc.pdf" = .ok ["  one two ", "three"] ∧
    ∃ pages : List PyValue,
      (PDFProcessor.process_pdf wPdf "doc.pdf").get? "pages" = some (.pyList pages) ∧
      pages.length = (["  one two ", "three"] : List String).length ∧
      ∀ i, i < (["  one two ", "three"] : List String).length →
        ∃ c : String,
          pages.getD i .pyNone =
            .pyDict [("page_number", .pyInt (i + 1)),
                     ("content", .pyStr c),
                     ("word_count", .pyInt (pySplit c).length)] ∧
          c = pyStrip ((["  one two ", "three"] : List String).getD i "") :=
  ⟨rfl, claim_C7 wPdf "doc.pdf" ["  one two ", "three"] rfl⟩

/-- C8 counterexample: with a write fault on the output path of
"doc.pdf" — an input whose extraction succeeds — `process_file` returns
an error envelope: the save-step fault is downgraded by the dispatcher's
catch-all, so its caller observes a returned envelope, not a raised
fault. -/
theorem counterexample_C8 :
    (PDFProcessor.process_pdf wDiskFull "doc.pdf").get? "processing_status"
      = some (.pyStr "success") ∧
    (FileProcessor.process_file wDiskFull "out" "doc.pdf").1
      = .pyDict [("processing_status", .pyStr "error"),
                 ("error_message", .pyStr "Error processing file doc.pdf: disk full")] :=
  ⟨rfl, rfl⟩

/-- C8 (amended): a write fault is re-raised by `save_output` to its
caller after logging (never downgraded inside the save step), but that
caller is `process_file`, whose catch-all converts it into a returned
top-level error envelope with message "Error processing file {path}:
{err}" and no completed write — so the caller of `process_file` observes
an envelope, not a raised fault. -/
theorem claim_C8 (w : World) (dir p e : String)
    (hsupp : pyLower (pyExt p) ∈ FileProcessor.supportedExts)
    (hf : w.writeFault (FileProcessor.outputPathFor dir p) = some e) :
    (∀ data, save_output w data (FileProcessor.outputPathFor dir p) = .error e) ∧
    (FileProcessor.process_file w dir p).1
      = .pyDict [("processing_status", .pyStr "error"),
                 ("error_message", .pyStr ("Error processing file " ++ p ++ ": " ++ e))] ∧
    writesOf (FileProcessor.process_file w dir p).2 = [] := by
  have hs : ∀ data, save_output w data (FileProcessor.outputPathFor dir p) = .error e := by
    intro data
    unfold save_output
    rw [hf]
  refine ⟨hs, ?_, ?_⟩
  · rw [process_file_supported hsupp]
    unfold FileProcessor.finishSave
    rw [hs]
  · rw [process_file_supported hsupp]
    unfold FileProcessor.finishSave
    rw [hs]
    rfl

/-- Witness for C8 at the concrete input "doc.pdf" with a disk-full
write fault. -/
theorem claim_C8_witness :
    pyLower (pyExt "doc.pdf") ∈ FileProcessor.supportedExts ∧
    wDiskFull.writeFault (FileProcessor.outputPathFor "out" "doc.pdf") = some "disk full" ∧
    ((∀ data, save_output wDiskFull data (FileProcessor.outputPathFor "out" "doc.pdf")
        = .error "disk full") ∧
     (FileProcessor.process_file wDiskFull "out" "doc.pdf").1
       = .pyDict [("processing_status", .pyStr "error"),
                  ("error_message",
                    .pyStr ("Error processing file " ++ "doc.pdf" ++ ": " ++ "disk full"))] ∧
     writesOf (FileProcessor.process_file wDiskFull "out" "doc.pdf").2 = []) :=
  ⟨by decide, rfl, claim_C8 wDiskFull "out" "doc.pdf" "disk full" (by decide) rfl⟩

/-- C9: evaluated at a one-column integer CSV, `process_csv` leaves
`null_count` as a numpy integer wrapper (`isnull().sum()` is never
passed through `_convert_value`), while `unique_values` is a native int;
the envelope is therefore not JSON-serializable, the subsequent
`json.dump` in `save_output` raises, and `process_file` ends in a
top-level error for a perfectly well-formed CSV. -/
theorem claim_C9 :
    (((CSVProcessor.process_csv wInt "d/a.csv").get? "column_statistics").bind
        (fun v => v.get? "a")).bind (fun v => v.get? "null_count")
      = some (.npInt 0) ∧
    jsonSerializable (.npInt 0) = false ∧
    (((CSVProcessor.process_csv wInt "d/a.csv").get? "column_statistics").bind
        (fun v => v.get? "a")).bind (fun v => v.get? "unique_values")
      = some (.pyInt 1) ∧
    jsonSerializable (CSVProcessor.process_csv wInt "d/a.csv") = false ∧
    save_output wInt (CSVProcessor.process_csv wInt "d/a.csv")
        (FileProcessor.outputPathFor "out" "d/a.csv")
      = .error "Object is not JSON serializable" ∧
    (FileProcessor.process_file wInt "out" "d/a.csv").1.get? "processing_status"
      = some (.pyStr "error") :=
  ⟨rfl, rfl, rfl, rfl, rfl, rfl⟩
